import Mathlib

/-!
Verification development for the daily-newsletter program (src/main.py).

Two components carry the decision logic specified in spec.md:
* the forecast reconciler: `interpolate_to_hourly` (main.py, lines 454-534) and
  the regularization branch of `format_weather_email` (main.py, lines 663-682);
* the comic deduplicator: `get_xkcd_comic` (main.py, lines 304-382).

The embedding below translates those functions into Lean.  Timestamps are
modelled as `Int` (epoch seconds), temperatures / feels-like / precipitation
probabilities as `ℚ` (the Python code uses floats; the algebraic structure of
the interpolation is what the spec states).  The `while current_hour <=
end_time` loop of `interpolate_to_hourly` is modelled with a fuel-bounded
recursion whose fuel is large enough to never run out (the loop advances by
7200 seconds per iteration, the fuel by 1 per iteration and starts at the
full width of the window in seconds plus one).  The
`replace(minute=0, second=0, microsecond=0)` truncation of the loop start is
the identity at the only call site (start_time is built with
`replace(hour=8, minute=0, second=0, microsecond=0)`), so the embedding takes
the loop start as given.
-/

namespace DailyNewsletter

/-- One entry of `forecast['weather'][0]`: a weather condition id and its
textual description. -/
structure Weather where
  id : Int
  descr : String
deriving DecidableEq

/-- The `forecast['main']` sub-dictionary: temperature and feels-like. -/
structure MainData where
  temp : ℚ
  feels_like : ℚ
deriving DecidableEq

/-- One forecast sample as consumed by `interpolate_to_hourly`:
`{'dt': ..., 'main': {'temp', 'feels_like'}, 'weather': [...], 'pop': ...}`. -/
structure Forecast where
  dt : Int
  main : MainData
  weather : Weather
  pop : ℚ
deriving DecidableEq

/-- The 2-hour tick sequence of the `while current_hour <= end_time` loop:
`start, start + 7200, ...` as long as the tick is `≤ endT`.  Fuel-bounded
recursion; the fuel decreases by one per emitted tick while the tick advances
by 7200 seconds, so `(endT + 1 - start).toNat` fuel never runs out. -/
def ticksAux : Nat → Int → Int → List Int
  | 0, _, _ => []
  | fuel + 1, start, endT =>
    if start ≤ endT then start :: ticksAux fuel (start + 7200) endT else []

/-- All 2-hour ticks from `start` to `endT` inclusive. -/
def ticks (start endT : Int) : List Int :=
  ticksAux (endT + 1 - start).toNat start endT

/-- The scan of `interpolate_to_hourly` that computes `before_forecast` and
`after_forecast` for a tick `t`.  Faithful to the Python loop: on
`forecast['dt'] <= t` it records the sample as `before` and the *next* list
element (when one exists) as `after`; on `forecast['dt'] > t` it sets
`before` when still unset, sets `after`, and breaks. -/
def scanBA : List Forecast → Int → Option Forecast → Option Forecast →
    Option Forecast × Option Forecast
  | [], _, b, a => (b, a)
  | f :: rest, t, b, a =>
    if f.dt ≤ t then
      let a2 := match rest with
        | [] => a
        | g :: _ => some g
      scanBA rest t (some f) a2
    else
      (if b.isNone then some f else b, some f)

/-- Compute `before_forecast` and `after_forecast` for tick `t` over `forecasts`. -/
def findBeforeAfter (forecasts : List Forecast) (t : Int) :
    Option Forecast × Option Forecast :=
  scanBA forecasts t none none

/-- The interpolation factor `(t - before.dt) / (after.dt - before.dt)`. -/
def interpFactor (b a : Forecast) (t : Int) : ℚ :=
  ((t - b.dt : ℤ) : ℚ) / ((a.dt - b.dt : ℤ) : ℚ)

/-- The `time_diff > 0` branch of `interpolate_to_hourly`: linear
interpolation of temp, feels-like and pop, with the weather condition taken
from `before` when `factor < 0.5` and from `after` otherwise. -/
def interpolateBetween (b a : Forecast) (t : Int) : Forecast :=
  let factor := interpFactor b a t
  { dt := t
    main := { temp := b.main.temp + (a.main.temp - b.main.temp) * factor
              feels_like :=
                b.main.feels_like + (a.main.feels_like - b.main.feels_like) * factor }
    weather := if factor < 1 / 2 then b.weather else a.weather
    pop := b.pop + (a.pop - b.pop) * factor }

/-- The body of the tick loop of `interpolate_to_hourly`: find
`before`/`after`, interpolate when both exist over a positive-width interval,
otherwise copy the available sample with its timestamp replaced by `t`; emit
nothing when neither exists. -/
def interpAt (forecasts : List Forecast) (t : Int) : Option Forecast :=
  match findBeforeAfter forecasts t with
  | (some b, some a) =>
    if a.dt - b.dt > 0 then some (interpolateBetween b a t)
    else some { b with dt := t }
  | (some b, none) => some { b with dt := t }
  | (none, some a) => some { a with dt := t }
  | (none, none) => none

/-- The function `interpolate_to_hourly(forecasts, start_time, end_time)`: one entry per
2-hour tick of the window for which a `before` or `after` sample exists. -/
def interpolate_to_hourly (forecasts : List Forecast) (startT endT : Int) :
    List Forecast :=
  (ticks startT endT).filterMap (interpAt forecasts)

/-- The window filter of `format_weather_email`:
`[f for f in forecast_list if start_timestamp <= f['dt'] <= end_timestamp]`. -/
def windowFilter (forecast_list : List Forecast) (startT endT : Int) :
    List Forecast :=
  forecast_list.filter fun f => decide (startT ≤ f.dt) && decide (f.dt ≤ endT)

/-- The regularization branch of `format_weather_email` (lines 663-682):
filter to the window; with at least two filtered samples compare the gap of
the first two against 7200 seconds (`is_hourly = time_diff < 7200`) and either
return the filtered list unchanged or interpolate; with zero or one filtered
sample return the filtered list as is. -/
def regularize (forecast_list : List Forecast) (startT endT : Int) :
    List Forecast :=
  let filtered := windowFilter forecast_list startT endT
  match filtered with
  | f0 :: f1 :: _ =>
    if f1.dt - f0.dt < 7200 then filtered
    else interpolate_to_hourly filtered startT endT
  | _ => filtered

/-! ## Comic deduplicator (`get_xkcd_comic`, main.py lines 304-382)

Calendar dates are modelled as day ordinals (`Int`): the code's
`comic_date == today or comic_date == yesterday` becomes
`comicDate = today ∨ comicDate = today - 1`.  The persisted state file is
modelled as an optional character list (`none` = file absent); `int(s.strip())`
is modelled by `pyIntOfChars`, with any parse failure mapped to `none` exactly
as the bare `except: pass` leaves `last_shown_num = None`.  The
`random.randint(1, max_comic_num)` draw is an input `r` of the transition
function, and the possible failure of the state-file write is an input
`writeOk` (on failure the file keeps its old content and the function merely
prints a warning). -/

/-- Digit-string value for `int(...)`: `none` on the empty string or any
non-digit character (a `ValueError` in Python). -/
def digitsToNat (cs : List Char) : Option Nat :=
  if cs = [] then none
  else if cs.all Char.isDigit then
    some (cs.foldl (fun acc c => acc * 10 + (c.toNat - 48)) 0)
  else none

/-- Python `str.strip()`: remove leading and trailing whitespace. -/
def stripChars (cs : List Char) : List Char :=
  ((cs.dropWhile Char.isWhitespace).reverse.dropWhile Char.isWhitespace).reverse

/-- Python `int(s.strip())` on the state-file content, `none` on failure. -/
def pyIntOfChars (cs : List Char) : Option Int :=
  match stripChars cs with
  | '-' :: rest => (digitsToNat rest).map fun n => -(n : Int)
  | '+' :: rest => (digitsToNat rest).map fun n => (n : Int)
  | rest => (digitsToNat rest).map fun n => (n : Int)

/-- Reading `last_shown_num` from the state file: `none` when the file is
absent or its content does not parse as an integer (the surrounding
`try/except` swallows every error). -/
def readMarker (fileContent : Option (List Char)) : Option Int :=
  fileContent.bind pyIntOfChars

/-- The decision part of `get_xkcd_comic`'s return value: the comic number
shown and whether it was labelled as new. -/
structure XkcdDecision where
  num : Int
  is_new : Bool
deriving DecidableEq

/-- The flag `is_recent`: the comic's publication date is today or yesterday. -/
def isRecent (comicDate today : Int) : Prop :=
  comicDate = today ∨ comicDate = today - 1

instance (comicDate today : Int) : Decidable (isRecent comicDate today) := by
  unfold isRecent; infer_instance

/-- The state transition of `get_xkcd_comic`: given the latest comic's number
and publication date, today's date, the persisted marker, the random draw `r`
(standing for `random.randint(1, comic_num)`) and whether the state-file write
would succeed, return the decision and the new persisted marker.  When the
latest comic is recent and its number differs from the marker, the marker is
written and the latest comic is returned with `is_new = True`; otherwise the
marker is untouched and the comic numbered `r` is returned with
`is_new = False`. -/
def get_xkcd_comic (comicNum comicDate today : Int) (marker : Option Int)
    (r : Int) (writeOk : Bool) : XkcdDecision × Option Int :=
  if isRecent comicDate today ∧ marker ≠ some comicNum then
    (⟨comicNum, true⟩, if writeOk then some comicNum else marker)
  else
    (⟨r, false⟩, marker)

/-! ## Theorems: the regularization branch -/

/-- Shared helper: whenever the window filter yields at least two samples and
the gap between the first two is strictly below 7200 seconds, `regularize`
returns the filtered list unchanged. -/
lemma regularize_eq_windowFilter (fs : List Forecast) (startT endT : Int)
    (f0 f1 : Forecast) (rest : List Forecast)
    (hf : windowFilter fs startT endT = f0 :: f1 :: rest)
    (hlt : f1.dt - f0.dt < 7200) :
    regularize fs startT endT = windowFilter fs startT endT := by
  unfold regularize
  rw [hf]
  simp [hlt]

/-- C1 (counterexample): two window-filtered samples whose first gap is
exactly 7200 seconds (2 hours).  The claim says the filtered list is returned
unchanged, but the code's check is the strict `time_diff < 7200`, so the
interpolation path runs and the result differs from the filtered list. -/
theorem regularize_changes_list_at_gap_exactly_7200 :
    windowFilter
        [⟨100, ⟨50, 50⟩, ⟨800, "clear"⟩, 0⟩, ⟨7300, ⟨56, 56⟩, ⟨800, "clear"⟩, 0⟩]
        0 7300 =
      [⟨100, ⟨50, 50⟩, ⟨800, "clear"⟩, 0⟩, ⟨7300, ⟨56, 56⟩, ⟨800, "clear"⟩, 0⟩] ∧
    ((⟨7300, ⟨56, 56⟩, ⟨800, "clear"⟩, 0⟩ : Forecast).dt -
        (⟨100, ⟨50, 50⟩, ⟨800, "clear"⟩, 0⟩ : Forecast).dt) ≤ 7200 ∧
    regularize
        [⟨100, ⟨50, 50⟩, ⟨800, "clear"⟩, 0⟩, ⟨7300, ⟨56, 56⟩, ⟨800, "clear"⟩, 0⟩]
        0 7300 ≠
      [⟨100, ⟨50, 50⟩, ⟨800, "clear"⟩, 0⟩, ⟨7300, ⟨56, 56⟩, ⟨800, "clear"⟩, 0⟩] := by
  refine ⟨by decide, by decide, by decide⟩

/-- C1 (amended): if the gap between the first two window-filtered samples is
strictly less than 2 hours (7200 seconds), `regularize` returns the filtered
list unchanged, performing no interpolation. -/
theorem regularize_identity_of_first_gap_lt_7200 (fs : List Forecast)
    (startT endT : Int) (f0 f1 : Forecast) (rest : List Forecast)
    (hf : windowFilter fs startT endT = f0 :: f1 :: rest)
    (hlt : f1.dt - f0.dt < 7200) :
    regularize fs startT endT = f0 :: f1 :: rest := by
  rw [regularize_eq_windowFilter fs startT endT f0 f1 rest hf hlt, hf]

/-- Witness for the amended C1 at a concrete input: two samples one hour
apart inside the window are returned unchanged. -/
theorem regularize_identity_of_first_gap_lt_7200_witness :
    regularize
        [⟨0, ⟨40, 40⟩, ⟨500, "rain"⟩, 1⟩, ⟨3600, ⟨42, 42⟩, ⟨500, "rain"⟩, 1⟩]
        0 7200 =
      [⟨0, ⟨40, 40⟩, ⟨500, "rain"⟩, 1⟩, ⟨3600, ⟨42, 42⟩, ⟨500, "rain"⟩, 1⟩] :=
  regularize_identity_of_first_gap_lt_7200
    [⟨0, ⟨40, 40⟩, ⟨500, "rain"⟩, 1⟩, ⟨3600, ⟨42, 42⟩, ⟨500, "rain"⟩, 1⟩]
    0 7200 _ _ [] (by decide) (by decide)

/-- C3 (counterexample): an ascending-sorted list of two in-window samples
spaced three hours apart (≥ 2 hours).  The claim says `regularize` returns
exactly the filtered subset unmodified; the code instead takes the
interpolation path and the result differs from the filtered subset. -/
theorem regularize_not_filtered_at_three_hour_spacing :
    windowFilter
        [⟨1, ⟨50, 50⟩, ⟨800, "clear"⟩, 0⟩, ⟨10801, ⟨56, 56⟩, ⟨801, "cloudy"⟩, 0⟩]
        0 10801 =
      [⟨1, ⟨50, 50⟩, ⟨800, "clear"⟩, 0⟩, ⟨10801, ⟨56, 56⟩, ⟨801, "cloudy"⟩, 0⟩] ∧
    ((⟨1, ⟨50, 50⟩, ⟨800, "clear"⟩, 0⟩ : Forecast).dt ≤
      (⟨10801, ⟨56, 56⟩, ⟨801, "cloudy"⟩, 0⟩ : Forecast).dt) ∧
    (7200 ≤ (⟨10801, ⟨56, 56⟩, ⟨801, "cloudy"⟩, 0⟩ : Forecast).dt -
      (⟨1, ⟨50, 50⟩, ⟨800, "clear"⟩, 0⟩ : Forecast).dt) ∧
    regularize
        [⟨1, ⟨50, 50⟩, ⟨800, "clear"⟩, 0⟩, ⟨10801, ⟨56, 56⟩, ⟨801, "cloudy"⟩, 0⟩]
        0 10801 ≠
      [⟨1, ⟨50, 50⟩, ⟨800, "clear"⟩, 0⟩, ⟨10801, ⟨56, 56⟩, ⟨801, "cloudy"⟩, 0⟩] := by
  refine ⟨by decide, by decide, by decide, by decide⟩

/-- C3 (amended): for every sample list whose window-filtered sublist has at
least two samples and consecutive filtered timestamps spaced strictly less
than 2 hours apart, `regularize` returns exactly that filtered sublist,
unmodified. -/
theorem regularize_identity_of_close_spacing (fs : List Forecast)
    (startT endT : Int)
    (hchain : List.Chain' (fun x y : Forecast => y.dt - x.dt < 7200)
      (windowFilter fs startT endT))
    (hlen : 2 ≤ (windowFilter fs startT endT).length) :
    regularize fs startT endT = windowFilter fs startT endT := by
  rcases hfe : windowFilter fs startT endT with _ | ⟨f0, _ | ⟨f1, rest⟩⟩
  · rw [hfe] at hlen; simp at hlen
  · rw [hfe] at hlen; simp at hlen
  · rw [hfe] at hchain
    rw [regularize_eq_windowFilter fs startT endT f0 f1 rest hfe
      hchain.rel_head, hfe]

/-- Witness for the amended C3 at a concrete input: three samples at
one-hour spacing inside the window are returned unchanged. -/
theorem regularize_identity_of_close_spacing_witness :
    regularize
        [⟨0, ⟨40, 40⟩, ⟨600, "snow"⟩, 0⟩, ⟨3600, ⟨41, 41⟩, ⟨600, "snow"⟩, 0⟩,
          ⟨7200, ⟨42, 42⟩, ⟨600, "snow"⟩, 0⟩] 0 7200 =
      windowFilter
        [⟨0, ⟨40, 40⟩, ⟨600, "snow"⟩, 0⟩, ⟨3600, ⟨41, 41⟩, ⟨600, "snow"⟩, 0⟩,
          ⟨7200, ⟨42, 42⟩, ⟨600, "snow"⟩, 0⟩] 0 7200 :=
  regularize_identity_of_close_spacing
    [⟨0, ⟨40, 40⟩, ⟨600, "snow"⟩, 0⟩, ⟨3600, ⟨41, 41⟩, ⟨600, "snow"⟩, 0⟩,
      ⟨7200, ⟨42, 42⟩, ⟨600, "snow"⟩, 0⟩] 0 7200
    (by simp [windowFilter, List.chain'_cons, List.chain'_singleton])
    (by decide)

/-- C9: when exactly one input sample falls within the window, `regularize`
returns that single sample unchanged at its original timestamp — the
spacing check and the tick expansion never run, so the output has length 1
however many 2-hour ticks the window contains. -/
theorem regularize_single_sample (fs : List Forecast) (startT endT : Int)
    (f : Forecast) (hf : windowFilter fs startT endT = [f]) :
    regularize fs startT endT = [f] := by
  unfold regularize
  rw [hf]

/-- Witness for C9: one sample inside a window seven ticks wide is returned
alone and untouched. -/
theorem regularize_single_sample_witness :
    regularize [⟨5000, ⟨70, 71⟩, ⟨802, "scattered clouds"⟩, 0⟩] 0 86400 =
      [⟨5000, ⟨70, 71⟩, ⟨802, "scattered clouds"⟩, 0⟩] :=
  regularize_single_sample [⟨5000, ⟨70, 71⟩, ⟨802, "scattered clouds"⟩, 0⟩]
    0 86400 _ (by decide)

/-! ## Theorems: the interpolation path -/

/-- Shared helper: a convex combination `x + (y - x) * f` with `f ∈ [0, 1]`
lies between `x` and `y` inclusive. -/
lemma lerp_between (x y f : ℚ) (h0 : 0 ≤ f) (h1 : f ≤ 1) :
    min x y ≤ x + (y - x) * f ∧ x + (y - x) * f ≤ max x y := by
  rcases le_total x y with hxy | hxy
  · rw [min_eq_left hxy, max_eq_right hxy]
    constructor <;> nlinarith
  · rw [min_eq_right hxy, max_eq_left hxy]
    constructor <;> nlinarith

/-- C4: for a tick with both a `before` and an `after` at distinct
timestamps, the interpolation path emits `interpolateBetween`; the weather
condition comes from `before` exactly when `factor < 0.5` and from `after`
otherwise (tie at `0.5` to `after`); at `factor = 0` the emitted entry is
`before` exactly and at `factor = 1` it is `after` exactly. -/
theorem interpolation_endpoints_and_weather_tiebreak (fs : List Forecast)
    (b a : Forecast) (t : Int) (h : b.dt < a.dt) :
    (findBeforeAfter fs t = (some b, some a) →
      interpAt fs t = some (interpolateBetween b a t)) ∧
    (interpFactor b a t = 0 → interpolateBetween b a t = b) ∧
    (interpFactor b a t = 1 → interpolateBetween b a t = a) ∧
    (interpFactor b a t < 1 / 2 → (interpolateBetween b a t).weather = b.weather) ∧
    (1 / 2 ≤ interpFactor b a t → (interpolateBetween b a t).weather = a.weather) := by
  have hne : ((a.dt - b.dt : ℤ) : ℚ) ≠ 0 := by
    have hz : (a.dt - b.dt : ℤ) ≠ 0 := by omega
    exact_mod_cast hz
  refine ⟨?_, ?_, ?_, ?_, ?_⟩
  · intro hba
    simp [interpAt, hba, show a.dt - b.dt > 0 by omega]
  · intro h0
    unfold interpFactor at h0
    rcases div_eq_zero_iff.mp h0 with hnum | hden
    · have ht : t = b.dt := by
        have : (t - b.dt : ℤ) = 0 := by exact_mod_cast hnum
        omega
      subst ht
      have hfac : interpFactor b a b.dt = 0 := by
        unfold interpFactor; simp
      obtain ⟨bdt, ⟨btemp, bfeels⟩, bw, bp⟩ := b
      simp [interpolateBetween, hfac]
    · exact absurd hden hne
  · intro h1
    unfold interpFactor at h1
    have hnum : ((t - b.dt : ℤ) : ℚ) = ((a.dt - b.dt : ℤ) : ℚ) :=
      (div_eq_one_iff_eq hne).mp h1
    have ht : t = a.dt := by
      have : (t - b.dt : ℤ) = (a.dt - b.dt : ℤ) := by exact_mod_cast hnum
      omega
    subst ht
    have hfac : interpFactor b a a.dt = 1 := by
      unfold interpFactor
      rw [div_eq_one_iff_eq hne]
    obtain ⟨adt, ⟨atemp, afeels⟩, aw, ap⟩ := a
    simp [interpolateBetween, hfac]
    intro hc
    norm_num at hc
  · intro hlt
    exact if_pos hlt
  · intro hge
    exact if_neg (not_lt.mpr hge)

/-- Witness for C4: with `before` at time 0 and `after` at time 1, the tick
at time 0 (factor 0) reproduces `before` exactly and the tick at time 1
(factor 1) reproduces `after` exactly. -/
theorem interpolation_endpoints_and_weather_tiebreak_witness :
    interpolateBetween ⟨0, ⟨10, 11⟩, ⟨800, "clear"⟩, 0⟩
        ⟨1, ⟨20, 21⟩, ⟨801, "cloudy"⟩, 1⟩ 0 =
      ⟨0, ⟨10, 11⟩, ⟨800, "clear"⟩, 0⟩ ∧
    interpolateBetween ⟨0, ⟨10, 11⟩, ⟨800, "clear"⟩, 0⟩
        ⟨1, ⟨20, 21⟩, ⟨801, "cloudy"⟩, 1⟩ 1 =
      ⟨1, ⟨20, 21⟩, ⟨801, "cloudy"⟩, 1⟩ :=
  ⟨(interpolation_endpoints_and_weather_tiebreak []
      ⟨0, ⟨10, 11⟩, ⟨800, "clear"⟩, 0⟩ ⟨1, ⟨20, 21⟩, ⟨801, "cloudy"⟩, 1⟩ 0
      (by decide)).2.1 (by simp [interpFactor]),
   (interpolation_endpoints_and_weather_tiebreak []
      ⟨0, ⟨10, 11⟩, ⟨800, "clear"⟩, 0⟩ ⟨1, ⟨20, 21⟩, ⟨801, "cloudy"⟩, 1⟩ 1
      (by decide)).2.2.1 (by simp [interpFactor])⟩

/-- C5: at a tick strictly between the `before` and `after` timestamps, the
interpolated temperature lies between the two bounding temperatures
inclusive, and likewise for feels-like and precipitation probability. -/
theorem interpolated_values_between_bounds (b a : Forecast) (t : Int)
    (h1 : b.dt < t) (h2 : t < a.dt) :
    (min b.main.temp a.main.temp ≤ (interpolateBetween b a t).main.temp ∧
      (interpolateBetween b a t).main.temp ≤ max b.main.temp a.main.temp) ∧
    (min b.main.feels_like a.main.feels_like ≤
        (interpolateBetween b a t).main.feels_like ∧
      (interpolateBetween b a t).main.feels_like ≤
        max b.main.feels_like a.main.feels_like) ∧
    (min b.pop a.pop ≤ (interpolateBetween b a t).pop ∧
      (interpolateBetween b a t).pop ≤ max b.pop a.pop) := by
  have hf0 : 0 ≤ interpFactor b a t := by
    unfold interpFactor
    apply div_nonneg
    · exact_mod_cast (by omega : (0 : ℤ) ≤ t - b.dt)
    · exact_mod_cast (by omega : (0 : ℤ) ≤ a.dt - b.dt)
  have hf1 : interpFactor b a t ≤ 1 := by
    unfold interpFactor
    rw [div_le_one (by exact_mod_cast (by omega : (0 : ℤ) < a.dt - b.dt))]
    exact_mod_cast (by omega : (t - b.dt : ℤ) ≤ a.dt - b.dt)
  refine ⟨?_, ?_, ?_⟩
  · simpa [interpolateBetween] using
      lerp_between b.main.temp a.main.temp (interpFactor b a t) hf0 hf1
  · simpa [interpolateBetween] using
      lerp_between b.main.feels_like a.main.feels_like (interpFactor b a t) hf0 hf1
  · simpa [interpolateBetween] using
      lerp_between b.pop a.pop (interpFactor b a t) hf0 hf1

/-- Witness for C5: a tick halfway between samples at times 0 and 2 keeps
temperature, feels-like and precipitation probability between the bounds. -/
theorem interpolated_values_between_bounds_witness :
    (min (10 : ℚ) 20 ≤
        (interpolateBetween ⟨0, ⟨10, 11⟩, ⟨800, "clear"⟩, 0⟩
          ⟨2, ⟨20, 21⟩, ⟨801, "cloudy"⟩, 1⟩ 1).main.temp ∧
      (interpolateBetween ⟨0, ⟨10, 11⟩, ⟨800, "clear"⟩, 0⟩
          ⟨2, ⟨20, 21⟩, ⟨801, "cloudy"⟩, 1⟩ 1).main.temp ≤ max (10 : ℚ) 20) ∧
    (min (11 : ℚ) 21 ≤
        (interpolateBetween ⟨0, ⟨10, 11⟩, ⟨800, "clear"⟩, 0⟩
          ⟨2, ⟨20, 21⟩, ⟨801, "cloudy"⟩, 1⟩ 1).main.feels_like ∧
      (interpolateBetween ⟨0, ⟨10, 11⟩, ⟨800, "clear"⟩, 0⟩
          ⟨2, ⟨20, 21⟩, ⟨801, "cloudy"⟩, 1⟩ 1).main.feels_like ≤
        max (11 : ℚ) 21) ∧
    (min (0 : ℚ) 1 ≤
        (interpolateBetween ⟨0, ⟨10, 11⟩, ⟨800, "clear"⟩, 0⟩
          ⟨2, ⟨20, 21⟩, ⟨801, "cloudy"⟩, 1⟩ 1).pop ∧
      (interpolateBetween ⟨0, ⟨10, 11⟩, ⟨800, "clear"⟩, 0⟩
          ⟨2, ⟨20, 21⟩, ⟨801, "cloudy"⟩, 1⟩ 1).pop ≤ max (0 : ℚ) 1) :=
  interpolated_values_between_bounds ⟨0, ⟨10, 11⟩, ⟨800, "clear"⟩, 0⟩
    ⟨2, ⟨20, 21⟩, ⟨801, "cloudy"⟩, 1⟩ 1 (by decide) (by decide)

/-- C6: a tick with only a `before` (or only an `after`) sample copies that
sample's values verbatim with its timestamp replaced by the tick; a
zero-width interval (`before` and `after` at the same timestamp) copies
`before`'s values at the tick without interpolating; and the empty input
list yields the empty output list. -/
theorem interpolation_boundary_and_empty_cases (fs : List Forecast)
    (t startT endT : Int) (b a : Forecast) :
    (findBeforeAfter fs t = (some b, none) →
      interpAt fs t = some { b with dt := t }) ∧
    (findBeforeAfter fs t = (none, some a) →
      interpAt fs t = some { a with dt := t }) ∧
    (findBeforeAfter fs t = (some b, some a) → a.dt = b.dt →
      interpAt fs t = some { b with dt := t }) ∧
    interpolate_to_hourly [] startT endT = [] := by
  refine ⟨?_, ?_, ?_, ?_⟩
  · intro hba; simp [interpAt, hba]
  · intro hba; simp [interpAt, hba]
  · intro hba heq
    simp [interpAt, hba, show ¬(a.dt - b.dt > 0) by omega]
  · rw [interpolate_to_hourly, List.filterMap_eq_nil_iff]
    intro x hx
    rfl

/-- Witness for C6: a single sample before the tick is copied at the tick; a
zero-width `before`/`after` pair is copied at the tick; the empty list maps
to the empty list. -/
theorem interpolation_boundary_and_empty_cases_witness :
    interpAt [⟨0, ⟨50, 50⟩, ⟨800, "clear"⟩, 0⟩] 100 =
      some ⟨100, ⟨50, 50⟩, ⟨800, "clear"⟩, 0⟩ ∧
    interpAt [⟨0, ⟨50, 50⟩, ⟨800, "clear"⟩, 0⟩, ⟨0, ⟨50, 50⟩, ⟨800, "clear"⟩, 0⟩]
        100 = some ⟨100, ⟨50, 50⟩, ⟨800, "clear"⟩, 0⟩ ∧
    interpolate_to_hourly [] 0 7200 = [] :=
  ⟨(interpolation_boundary_and_empty_cases
      [⟨0, ⟨50, 50⟩, ⟨800, "clear"⟩, 0⟩] 100 0 7200
      ⟨0, ⟨50, 50⟩, ⟨800, "clear"⟩, 0⟩ ⟨0, ⟨50, 50⟩, ⟨800, "clear"⟩, 0⟩).1
      (by decide),
   (interpolation_boundary_and_empty_cases
      [⟨0, ⟨50, 50⟩, ⟨800, "clear"⟩, 0⟩, ⟨0, ⟨50, 50⟩, ⟨800, "clear"⟩, 0⟩]
      100 0 7200 ⟨0, ⟨50, 50⟩, ⟨800, "clear"⟩, 0⟩
      ⟨0, ⟨50, 50⟩, ⟨800, "clear"⟩, 0⟩).2.2.1 (by decide) (by decide),
   (interpolation_boundary_and_empty_cases [] 100 0 7200
      ⟨0, ⟨50, 50⟩, ⟨800, "clear"⟩, 0⟩
      ⟨0, ⟨50, 50⟩, ⟨800, "clear"⟩, 0⟩).2.2.2⟩

/-! ## Theorems: the comic deduplicator -/

/-- C2: when the latest comic is recent (published today or yesterday) and
its number differs from the marker, the marker becomes the latest number and
the decision is the latest comic labelled new; in every other case the
marker is unchanged and the decision is the random draw `r` from
`[1, latest.number]` labelled random, whatever `r` turns out to be; in
particular a latest comic published 3 or more days ago always yields the
random decision regardless of the marker. -/
theorem xkcd_transition_characterization (n d today r : Int)
    (marker : Option Int) (writeOk : Bool) (hr : 1 ≤ r ∧ r ≤ n) :
    ((isRecent d today ∧ marker ≠ some n) →
      get_xkcd_comic n d today marker r true = (⟨n, true⟩, some n)) ∧
    (¬(isRecent d today ∧ marker ≠ some n) →
      get_xkcd_comic n d today marker r writeOk = (⟨r, false⟩, marker)) ∧
    (3 ≤ today - d →
      get_xkcd_comic n d today marker r writeOk = (⟨r, false⟩, marker)) := by
  refine ⟨?_, ?_, ?_⟩
  · intro hc
    rw [get_xkcd_comic, if_pos hc]; rfl
  · intro hc
    rw [get_xkcd_comic, if_neg hc]
  · intro h3
    have hc : ¬(isRecent d today ∧ marker ≠ some n) := by
      rintro ⟨hrec, -⟩
      unfold isRecent at hrec
      omega
    rw [get_xkcd_comic, if_neg hc]

/-- Witness for C2: comic 100 published today with no marker is shown as
new (marker becomes 100); comic 100 published 3 days ago with marker 99
falls back to the random draw 5 with the marker untouched. -/
theorem xkcd_transition_characterization_witness :
    get_xkcd_comic 100 10 10 none 5 true = (⟨100, true⟩, some 100) ∧
    get_xkcd_comic 100 7 10 (some 99) 5 true = (⟨5, false⟩, some 99) :=
  ⟨(xkcd_transition_characterization 100 10 10 5 none true
      ⟨by decide, by decide⟩).1 ⟨Or.inl rfl, by simp⟩,
   (xkcd_transition_characterization 100 7 10 5 (some 99) true
      ⟨by decide, by decide⟩).2.2 (by decide)⟩

/-- C7: the new label appears at most once per comic number — a first run
with no marker and a latest comic published today shows it as new and sets
the marker to its number, and a second run with the updated marker yields
the random decision (not new) although the comic is still recent. -/
theorem xkcd_new_shown_at_most_once (n today r1 r2 : Int) :
    get_xkcd_comic n today today none r1 true = (⟨n, true⟩, some n) ∧
    (get_xkcd_comic n today today
        (get_xkcd_comic n today today none r1 true).2 r2 true).1 = ⟨r2, false⟩ ∧
    (get_xkcd_comic n today today
        (get_xkcd_comic n today today none r1 true).2 r2 true).2 = some n := by
  have h1 : get_xkcd_comic n today today none r1 true = (⟨n, true⟩, some n) := by
    rw [get_xkcd_comic, if_pos ⟨Or.inl rfl, by simp⟩]; rfl
  refine ⟨h1, ?_, ?_⟩ <;>
    · rw [h1]
      simp [get_xkcd_comic]

/-- C8: an absent state file and a file whose content fails to parse as an
integer are both read as the no-marker state, and with a recent latest comic
the decision is then new and the marker is rewritten to the latest number —
the corrupt marker never makes the operation fail. -/
theorem xkcd_corrupt_marker_as_none (cs : List Char) (n d today r : Int)
    (hp : pyIntOfChars cs = none) (hrec : isRecent d today) :
    readMarker none = none ∧
    readMarker (some cs) = none ∧
    get_xkcd_comic n d today (readMarker (some cs)) r true =
      (⟨n, true⟩, some n) := by
  have hm : readMarker (some cs) = none := by
    simp [readMarker, hp]
  refine ⟨rfl, hm, ?_⟩
  rw [hm, get_xkcd_comic, if_pos ⟨hrec, by simp⟩]; rfl

/-- Witness for C8: the file content "garbage" reads as no marker and comic
42 published today is shown as new with the marker rewritten to 42. -/
theorem xkcd_corrupt_marker_as_none_witness :
    readMarker none = none ∧
    readMarker (some ['g', 'a', 'r', 'b', 'a', 'g', 'e']) = none ∧
    get_xkcd_comic 42 0 0 (readMarker (some ['g', 'a', 'r', 'b', 'a', 'g', 'e']))
        1 true = (⟨42, true⟩, some 42) :=
  xkcd_corrupt_marker_as_none ['g', 'a', 'r', 'b', 'a', 'g', 'e'] 42 0 0 1
    (by decide) (Or.inl rfl)

/-- C10: when the new-comic branch is taken but the marker write fails, the
decision is unaffected — still the latest comic with `is_new = true`,
identical to the decision when the write succeeds — and the persisted marker
keeps its old value. -/
theorem xkcd_decision_independent_of_write (n d today r : Int)
    (marker : Option Int) (h : isRecent d today ∧ marker ≠ some n) :
    (get_xkcd_comic n d today marker r false).1 = ⟨n, true⟩ ∧
    (get_xkcd_comic n d today marker r false).1 =
      (get_xkcd_comic n d today marker r true).1 ∧
    (get_xkcd_comic n d today marker r false).2 = marker := by
  rw [get_xkcd_comic, if_pos h, get_xkcd_comic, if_pos h]
  simp

/-- Witness for C10: comic 7 published today with no marker and a failing
write still decides new comic 7, matching the successful-write decision,
while the marker stays absent. -/
theorem xkcd_decision_independent_of_write_witness :
    (get_xkcd_comic 7 3 3 none 2 false).1 = ⟨7, true⟩ ∧
    (get_xkcd_comic 7 3 3 none 2 false).1 =
      (get_xkcd_comic 7 3 3 none 2 true).1 ∧
    (get_xkcd_comic 7 3 3 none 2 false).2 = none :=
  xkcd_decision_independent_of_write 7 3 3 2 none ⟨Or.inl rfl, by simp⟩

end DailyNewsletter
